import Mathlib

/-!
Shallow embedding of `git2edx/config.py` (`get_config`).

The Python function reads six `GIT2EDX_*` environment variables, optionally
discovers and parses a YAML file, overlays the YAML on the environment-derived
defaults, validates the studio entries, and either returns the configuration
dictionary or raises.  The embedding models

* Python/YAML scalar values by `Val` (None, strings, booleans) together with
  Python truthiness,
* a studio dictionary by `StudioEntry`, every field an `Option Val` so that an
  absent key (which makes `studio["..."]` raise `KeyError`) is distinguished
  from a key that is present with a falsy value,
* the value found under the top-level `studios` key by `StudiosVal`
  (either None or an insertion-ordered mapping),
* the process environment by `Env`, the file system (open + `yaml.load`,
  keyed by path) by a function `String → FileOutcome`,
* the possible exceptions by `PyError`: `G2EConfigException` with its full
  message, a bare `KeyError`, and a propagated YAML parse error.

`get_config` itself is split into the same stages as the Python code:
discovery (`discoverYaml` / `resolvedYaml`), the `config.update(yaml_config)`
overlay (`applyYaml`, giving `mergedConfig`), the fallback to the
environment-variable studio (`resolveStudioEntries`), and the per-studio
validation loop (`validateStudio` / `validateStudios`).
-/

set_option autoImplicit false

namespace Git2edx

/-- A Python/YAML scalar value as far as `get_config` inspects one:
`None`, a string, or a boolean. -/
inductive Val where
  | vnone
  | vstr (s : String)
  | vbool (b : Bool)
deriving DecidableEq

/-- Python truthiness of a `Val`: `None` and `""` and `False` are falsy. -/
def Val.truthy : Val → Bool
  | .vnone => false
  | .vstr s => s != ""
  | .vbool b => b

/-- `os.environ.get` yields `None` (unset) or a string. -/
def valOfOpt : Option String → Val
  | none => Val.vnone
  | some s => Val.vstr s

/-- One studio dictionary.  A field that is `none` models an absent key:
Python's `studio["email"]` etc. raises `KeyError` on it. -/
structure StudioEntry where
  url : Option Val
  email : Option Val
  password : Option Val
  default : Option Val
deriving DecidableEq

/-- The value stored under the `studios` key of the configuration:
`None`, or a name-to-studio mapping in insertion order. -/
inductive StudiosVal where
  | vnone
  | vmap (entries : List (String × StudioEntry))
deriving DecidableEq

/-- Python truthiness of the `studios` value: `None` and `{}` are falsy. -/
def StudiosVal.truthy : StudiosVal → Bool
  | .vnone => false
  | .vmap l => !l.isEmpty

/-- A parsed top-level YAML mapping restricted to the keys `get_config`
reads.  A field that is `none` models that the key is absent from the
mapping, so `config.update(yaml_config)` leaves the default in place. -/
structure Yaml where
  yaml_config_location : Option Val
  default_secret : Option Val
  course_directory : Option Val
  studios : Option StudiosVal
  courses : Option Val
deriving DecidableEq

/-- Python truthiness of the parsed YAML mapping: truthy iff non-empty. -/
def Yaml.truthy (y : Yaml) : Bool :=
  y.yaml_config_location.isSome || y.default_secret.isSome ||
    y.course_directory.isSome || y.studios.isSome || y.courses.isSome

/-- Truthiness of the `yaml_config` variable (`None` or a parsed mapping). -/
def yamlTruthy : Option Yaml → Bool
  | none => false
  | some y => y.truthy

/-- The six `GIT2EDX_*` environment variables (`none` = unset). -/
structure Env where
  config_file : Option String
  default_secret : Option String
  course_dir : Option String
  studio_url : Option String
  studio_email : Option String
  studio_password : Option String
deriving DecidableEq

/-- What `yaml.load(open(loc))` does at one path: `open` raises `IOError`
(`missing`), or the file opens and parses (`parsed`, possibly to `None`
for an empty document), or `yaml.load` raises a parse error. -/
inductive FileOutcome where
  | missing
  | parsed (y : Option Yaml)
  | parseError (msg : String)
deriving DecidableEq

/-- The exceptions `get_config` can raise: a `G2EConfigException` carrying
its full message, a bare `KeyError` from `studio[key]` on an absent key,
and a YAML parse error that propagates uncaught. -/
inductive PyError where
  | g2eConfig (msg : String)
  | keyError (key : String)
  | yamlError (msg : String)
deriving DecidableEq

/-- The suffix `G2EConfigException.__init__` appends to every message. -/
def g2eExceptionMessage (m : String) : String :=
  m ++ "\nPlease see the example file (git2edx.env.example.yml) " ++
    "for a detailed configuration walkthrough."

/-- Message raised when neither YAML nor the environment configures a studio. -/
def noStudioMsg : String := "Couldn't find any studio account configuration!"

/-- Message raised for a studio whose email or password entry is falsy. -/
def incompleteStudioMsg (name field : String) : String :=
  "The \"" ++ name ++ "\" studio configuration has no " ++ field ++ " entry!"

/-- Message raised when no studio is default and there are no courses. -/
def noDefaultMsg : String :=
  "Because there are no course configuration entries, at least " ++
    "one studio configuration must be marked as default!"

/-- The configuration dictionary built by `get_config`. -/
structure Config where
  yaml_config_location : Val
  default_secret : Val
  course_directory : Val
  studios : StudiosVal
  courses : Val
  default_studios : List String
deriving DecidableEq

/-- The configuration as first populated from the environment alone. -/
def envConfig (env : Env) : Config :=
  { yaml_config_location := valOfOpt env.config_file
    default_secret := valOfOpt env.default_secret
    course_directory := valOfOpt env.course_dir
    studios := StudiosVal.vnone
    courses := Val.vnone
    default_studios := [] }

/-- The synthetic studio built from `GIT2EDX_STUDIO_*`; all four keys are
present, and `default` is `True`. -/
def environStudioConfig (env : Env) : StudioEntry :=
  { url := some (valOfOpt env.studio_url)
    email := some (valOfOpt env.studio_email)
    password := some (valOfOpt env.studio_password)
    default := some (Val.vbool true) }

/-- `os.path.join` as used on the discovery candidates. -/
def pathJoin (a b : String) : String := a ++ "/" ++ b

/-- The candidate YAML locations, in the order the code tries them. -/
def yamlLocations (env : Env) (cwd home : String) : List (Option String) :=
  [env.config_file,
   some (pathJoin cwd "git2edx.env.yml"),
   some (pathJoin home ".git2edx.env.yml"),
   some "/etc/git2edx.env.yml"]

/-- The discovery loop: skip falsy locations and `IOError`s, stop at the
first file that opens and parses (`break`), propagate parse errors.  `acc`
is the falsy `yaml_config` the loop started with, returned unchanged when
every candidate is skipped. -/
def discoverYaml (fs : String → FileOutcome) (acc : Option Yaml) :
    List (Option String) → Except PyError (Option Yaml)
  | [] => Except.ok acc
  | none :: rest => discoverYaml fs acc rest
  | some s :: rest =>
    if s = "" then discoverYaml fs acc rest
    else
      match fs s with
      | FileOutcome.missing => discoverYaml fs acc rest
      | FileOutcome.parsed y => Except.ok y
      | FileOutcome.parseError m => Except.error (PyError.yamlError m)

/-- The `yaml_config` in force after the discovery step: the argument when
it is truthy, otherwise the result of the discovery loop. -/
def resolvedYaml (env : Env) (cwd home : String) (fs : String → FileOutcome)
    (yaml0 : Option Yaml) : Except PyError (Option Yaml) :=
  if yamlTruthy yaml0 then Except.ok yaml0
  else discoverYaml fs yaml0 (yamlLocations env cwd home)

/-- `if yaml_config: config.update(yaml_config)` — overlay the YAML keys
that are present onto the environment-derived configuration. -/
def applyYaml (c : Config) (yaml_config : Option Yaml) : Config :=
  match yaml_config with
  | none => c
  | some y =>
    if y.truthy then
      { c with
        yaml_config_location := y.yaml_config_location.getD c.yaml_config_location
        default_secret := y.default_secret.getD c.default_secret
        course_directory := y.course_directory.getD c.course_directory
        studios := y.studios.getD c.studios
        courses := y.courses.getD c.courses }
    else c

/-- The configuration after discovery and the `config.update` overlay. -/
def mergedConfig (env : Env) (cwd home : String) (fs : String → FileOutcome)
    (yaml0 : Option Yaml) : Except PyError Config :=
  match resolvedYaml env cwd home fs yaml0 with
  | Except.error e => Except.error e
  | Except.ok yc => Except.ok (applyYaml (envConfig env) yc)

/-- The studio mapping the validation loop iterates over: the merged
`studios` when it is truthy; otherwise the environment studio under the
reserved name, provided both its email and password are truthy; otherwise
the `NoStudioConfigured` error. -/
def resolveStudioEntries (env : Env) (c : Config) :
    Except PyError (List (String × StudioEntry)) :=
  if !c.studios.truthy then
    if (valOfOpt env.studio_email).truthy && (valOfOpt env.studio_password).truthy then
      Except.ok [("ENVIRON_VARS", environStudioConfig env)]
    else
      Except.error (PyError.g2eConfig (g2eExceptionMessage noStudioMsg))
  else
    match c.studios with
    | StudiosVal.vmap l => Except.ok l
    | StudiosVal.vnone => Except.ok []

/-- One iteration of the validation loop, in the code's evaluation order:
index `email` (KeyError if absent); if falsy raise the incomplete-config
error naming `email`; index `password` (KeyError if absent); if falsy raise
it naming `password`; index `url` (KeyError if absent) and default it when
falsy; index `default` (KeyError if absent).  Returns the entry with its
url possibly defaulted, and whether the studio is default. -/
def validateStudio (name : String) (studio : StudioEntry) :
    Except PyError (StudioEntry × Bool) :=
  match studio.email with
  | none => Except.error (PyError.keyError "email")
  | some email =>
    if email.truthy then
      match studio.password with
      | none => Except.error (PyError.keyError "password")
      | some password =>
        if password.truthy then
          match studio.url with
          | none => Except.error (PyError.keyError "url")
          | some url =>
            match studio.default with
            | none => Except.error (PyError.keyError "default")
            | some d =>
              Except.ok
                ({ studio with
                    url := some (if url.truthy then url
                                 else Val.vstr "https://studio.edx.org") },
                 d.truthy)
        else
          Except.error (PyError.g2eConfig
            (g2eExceptionMessage (incompleteStudioMsg name "password")))
    else
      Except.error (PyError.g2eConfig
        (g2eExceptionMessage (incompleteStudioMsg name "email")))

/-- The validation loop over the studio mapping in iteration order: the
first failing entry aborts; on success, the url-defaulted entries and the
names appended to `default_studios`. -/
def validateStudios :
    List (String × StudioEntry) →
      Except PyError (List (String × StudioEntry) × List String)
  | [] => Except.ok ([], [])
  | (name, studio) :: rest =>
    match validateStudio name studio with
    | Except.error e => Except.error e
    | Except.ok (studio2, isDflt) =>
      match validateStudios rest with
      | Except.error e => Except.error e
      | Except.ok (rest2, dflts) =>
        Except.ok ((name, studio2) :: rest2,
          if isDflt then name :: dflts else dflts)

/-- What a successful `validateStudio` does to an entry: only the url is
touched, defaulted to `https://studio.edx.org` when falsy. -/
def defaultedStudio (s : StudioEntry) : StudioEntry :=
  { s with
    url := some (match s.url with
      | some u => if u.truthy then u else Val.vstr "https://studio.edx.org"
      | none => Val.vstr "https://studio.edx.org") }

/-- `get_config`, with the ambient environment, working directory, home
directory and file system made explicit, and `yaml0` the `yaml_config`
argument (`none` = not passed). -/
def get_config (env : Env) (cwd home : String) (fs : String → FileOutcome)
    (yaml0 : Option Yaml) : Except PyError Config :=
  match mergedConfig env cwd home fs yaml0 with
  | Except.error e => Except.error e
  | Except.ok config1 =>
    match resolveStudioEntries env config1 with
    | Except.error e => Except.error e
    | Except.ok entries =>
      match validateStudios entries with
      | Except.error e => Except.error e
      | Except.ok (entries2, dflts) =>
        if dflts.isEmpty &&
            !({ config1 with
                 studios := StudiosVal.vmap entries2,
                 default_studios := dflts } : Config).courses.truthy then
          Except.error (PyError.g2eConfig (g2eExceptionMessage noDefaultMsg))
        else
          Except.ok { config1 with
            studios := StudiosVal.vmap entries2,
            default_studios := dflts }

end Git2edx

namespace Git2edx

/-- A discovery candidate the loop passes over: either the location is
falsy (unset or empty), or opening it raises `IOError`. -/
def candidateSkipped (fs : String → FileOutcome) (loc : Option String) : Prop :=
  loc = none ∨ loc = some "" ∨ ∃ p, loc = some p ∧ fs p = FileOutcome.missing

/-- A file system on which every `open` raises `IOError`. -/
def fsAllMissing : String → FileOutcome := fun _ => FileOutcome.missing

/-- An environment with only the studio email and password set. -/
def envOnlyStudio : Env :=
  { config_file := none, default_secret := none, course_dir := none,
    studio_url := none, studio_email := some "a@b.com",
    studio_password := some "secret" }

/-- An environment with no `GIT2EDX_*` variable set. -/
def envEmpty : Env :=
  { config_file := none, default_secret := none, course_dir := none,
    studio_url := none, studio_email := none, studio_password := none }

/-- A YAML mapping whose single studio has an empty `email`. -/
def yamlEmptyEmail : Yaml :=
  { yaml_config_location := none, default_secret := none, course_directory := none,
    studios := some (StudiosVal.vmap [("acme",
      { url := some Val.vnone, email := some (Val.vstr ""),
        password := some (Val.vstr "pw"), default := some (Val.vbool true) })]),
    courses := none }

/-- A YAML mapping whose single studio has an email but an empty `password`. -/
def yamlEmptyPassword : Yaml :=
  { yaml_config_location := none, default_secret := none, course_directory := none,
    studios := some (StudiosVal.vmap [("acme",
      { url := some Val.vnone, email := some (Val.vstr "e@x.org"),
        password := some (Val.vstr ""), default := some (Val.vbool true) })]),
    courses := none }

/-- A YAML mapping whose single studio lacks the `email` key entirely. -/
def yamlNoEmailKey : Yaml :=
  { yaml_config_location := none, default_secret := none, course_directory := none,
    studios := some (StudiosVal.vmap [("acme",
      { url := some Val.vnone, email := none,
        password := some (Val.vstr "pw"), default := some (Val.vbool true) })]),
    courses := none }

/-- A YAML mapping whose single studio lacks the `url` key entirely. -/
def yamlNoUrlKey : Yaml :=
  { yaml_config_location := none, default_secret := none, course_directory := none,
    studios := some (StudiosVal.vmap [("acme",
      { url := none, email := some (Val.vstr "e@x.org"),
        password := some (Val.vstr "pw"), default := some (Val.vbool true) })]),
    courses := none }

/-- A YAML mapping whose single studio lacks the `default` key entirely. -/
def yamlNoDefaultKey : Yaml :=
  { yaml_config_location := none, default_secret := none, course_directory := none,
    studios := some (StudiosVal.vmap [("acme",
      { url := some (Val.vstr "http://s.example"), email := some (Val.vstr "e@x.org"),
        password := some (Val.vstr "pw"), default := none })]),
    courses := none }

/-- A YAML mapping that defines the `studios` key but leaves it empty. -/
def yamlEmptyStudios : Yaml :=
  { yaml_config_location := none, default_secret := none, course_directory := none,
    studios := some (StudiosVal.vmap []), courses := none }

/-- A YAML mapping with one complete, non-default studio and a non-empty
`courses` entry. -/
def yamlNonDefaultWithCourses : Yaml :=
  { yaml_config_location := none, default_secret := none, course_directory := none,
    studios := some (StudiosVal.vmap [("acme",
      { url := some (Val.vstr "http://s.example"), email := some (Val.vstr "e@x.org"),
        password := some (Val.vstr "pw"), default := some (Val.vbool false) })]),
    courses := some (Val.vstr "course") }

/-- A YAML mapping with one complete studio with an empty url, marked
default, and no courses. -/
def yamlOneDefaultStudio : Yaml :=
  { yaml_config_location := none, default_secret := none, course_directory := none,
    studios := some (StudiosVal.vmap [("acme",
      { url := some Val.vnone, email := some (Val.vstr "e@x.org"),
        password := some (Val.vstr "pw"), default := some (Val.vbool true) })]),
    courses := none }

/-- A file system with a valid config at `/conf/a.yml` and another valid
file at `/cwd/git2edx.env.yml`. -/
def fsConfAndCwd : String → FileOutcome := fun p =>
  if p = "/conf/a.yml" then FileOutcome.parsed (some yamlOneDefaultStudio)
  else if p = "/cwd/git2edx.env.yml" then FileOutcome.parsed (some yamlNonDefaultWithCourses)
  else FileOutcome.missing

theorem discoverYaml_missing (fs : String → FileOutcome)
    (hfs : ∀ p, fs p = FileOutcome.missing) (acc : Option Yaml) :
    ∀ locs, discoverYaml fs acc locs = Except.ok acc := by
  intro locs
  induction locs with
  | nil => rfl
  | cons loc rest ih =>
    cases loc with
    | none => simpa [discoverYaml] using ih
    | some s =>
      by_cases hs : s = ""
      · simp [discoverYaml, hs, ih]
      · simp [discoverYaml, hs, hfs, ih]

/-- Claim C1: with non-empty `GIT2EDX_STUDIO_EMAIL` and
`GIT2EDX_STUDIO_PASSWORD`, `GIT2EDX_STUDIO_URL` unset, no preparsed YAML and
no discoverable YAML file, `get_config` succeeds and its `studios` mapping is
exactly the single entry `"ENVIRON_VARS"` with the default studio URL, the
environment credentials and `default: true`, and `default_studios` is
`["ENVIRON_VARS"]`. -/
theorem claim_c1 (env : Env) (cwd home : String) (fs : String → FileOutcome)
    (e p : String)
    (hemail : env.studio_email = some e) (he : e ≠ "")
    (hpass : env.studio_password = some p) (hp : p ≠ "")
    (hurl : env.studio_url = none)
    (hfs : ∀ q, fs q = FileOutcome.missing) :
    ∃ c, get_config env cwd home fs none = Except.ok c ∧
      c.studios = StudiosVal.vmap [("ENVIRON_VARS",
        { url := some (Val.vstr "https://studio.edx.org")
          email := some (Val.vstr e)
          password := some (Val.vstr p)
          default := some (Val.vbool true) })] ∧
      c.default_studios = ["ENVIRON_VARS"] := by
  have hdisc : resolvedYaml env cwd home fs none = Except.ok none := by
    simp [resolvedYaml, yamlTruthy, discoverYaml_missing fs hfs]
  refine ⟨{ envConfig env with
            studios := StudiosVal.vmap [("ENVIRON_VARS",
              { url := some (Val.vstr "https://studio.edx.org")
                email := some (Val.vstr e)
                password := some (Val.vstr p)
                default := some (Val.vbool true) })]
            default_studios := ["ENVIRON_VARS"] }, ?_, rfl, rfl⟩
  simp [get_config, mergedConfig, hdisc, applyYaml, resolveStudioEntries,
    envConfig, StudiosVal.truthy, valOfOpt, hemail, hpass, hurl,
    Val.truthy, he, hp, environStudioConfig, validateStudios, validateStudio]

end Git2edx

namespace Git2edx

theorem claim_c1_witness :
    ∃ c, get_config envOnlyStudio "/cwd" "/home" fsAllMissing none = Except.ok c ∧
      c.studios = StudiosVal.vmap [("ENVIRON_VARS",
        { url := some (Val.vstr "https://studio.edx.org")
          email := some (Val.vstr "a@b.com")
          password := some (Val.vstr "secret")
          default := some (Val.vbool true) })] ∧
      c.default_studios = ["ENVIRON_VARS"] :=
  claim_c1 envOnlyStudio "/cwd" "/home" fsAllMissing "a@b.com" "secret"
    rfl (by decide) rfl (by decide) rfl (fun _ => rfl)

theorem pathJoin_ne_empty (a b : String) : pathJoin a b ≠ "" := by
  intro h
  have hlen := congrArg String.length h
  simp [pathJoin, String.length_append] at hlen
  exact absurd hlen.1.2 (by decide)

/-- Claim C6: with no preparsed YAML, discovery tries the candidates in the
order `GIT2EDX_CONFIG_FILE`, `cwd/git2edx.env.yml`, `home/.git2edx.env.yml`,
`/etc/git2edx.env.yml`, and stops at the first file that opens and parses:
a truthy `GIT2EDX_CONFIG_FILE` whose file parses is used whatever the later
candidates (in particular when `cwd/git2edx.env.yml` also exists), and each
later candidate is used exactly when every earlier one is skipped. -/
theorem claim_c6 (env : Env) (cwd home : String) (fs : String → FileOutcome)
    (y : Option Yaml) :
    (∀ p, env.config_file = some p → p ≠ "" → fs p = FileOutcome.parsed y →
      resolvedYaml env cwd home fs none = Except.ok y)
    ∧ (candidateSkipped fs env.config_file →
      fs (pathJoin cwd "git2edx.env.yml") = FileOutcome.parsed y →
      resolvedYaml env cwd home fs none = Except.ok y)
    ∧ (candidateSkipped fs env.config_file →
      fs (pathJoin cwd "git2edx.env.yml") = FileOutcome.missing →
      fs (pathJoin home ".git2edx.env.yml") = FileOutcome.parsed y →
      resolvedYaml env cwd home fs none = Except.ok y)
    ∧ (candidateSkipped fs env.config_file →
      fs (pathJoin cwd "git2edx.env.yml") = FileOutcome.missing →
      fs (pathJoin home ".git2edx.env.yml") = FileOutcome.missing →
      fs "/etc/git2edx.env.yml" = FileOutcome.parsed y →
      resolvedYaml env cwd home fs none = Except.ok y) := by
  have hskip : ∀ rest, candidateSkipped fs env.config_file →
      discoverYaml fs none (env.config_file :: rest) = discoverYaml fs none rest := by
    intro rest hcs
    rcases hcs with h | h | ⟨p, hp, hm⟩
    · simp [h, discoverYaml]
    · simp [h, discoverYaml]
    · simp [hp, discoverYaml]
      by_cases hpe : p = ""
      · simp [hpe]
      · simp [hpe, hm]
  refine ⟨?_, ?_, ?_, ?_⟩
  · intro p hp hpe hparsed
    simp [resolvedYaml, yamlTruthy, yamlLocations, hp, discoverYaml, hpe, hparsed]
  · intro hcs hparsed
    simp [resolvedYaml, yamlTruthy, yamlLocations, hskip _ hcs, discoverYaml,
      pathJoin_ne_empty cwd "git2edx.env.yml", hparsed]
  · intro hcs hm1 hparsed
    simp [resolvedYaml, yamlTruthy, yamlLocations, hskip _ hcs, discoverYaml,
      pathJoin_ne_empty cwd "git2edx.env.yml", hm1,
      pathJoin_ne_empty home ".git2edx.env.yml", hparsed]
  · intro hcs hm1 hm2 hparsed
    simp [resolvedYaml, yamlTruthy, yamlLocations, hskip _ hcs, discoverYaml,
      pathJoin_ne_empty cwd "git2edx.env.yml", hm1,
      pathJoin_ne_empty home ".git2edx.env.yml", hm2, hparsed]

theorem claim_c6_witness :
    resolvedYaml { envEmpty with config_file := some "/conf/a.yml" }
      "/cwd" "/home" fsConfAndCwd none = Except.ok (some yamlOneDefaultStudio) :=
  (claim_c6 { envEmpty with config_file := some "/conf/a.yml" }
      "/cwd" "/home" fsConfAndCwd (some yamlOneDefaultStudio)).1
    "/conf/a.yml" rfl (by decide) rfl

end Git2edx

namespace Git2edx

/-- Claim C7: during discovery a candidate whose `open` raises `IOError` is
silently skipped and the next candidate is tried; a candidate that opens but
fails to parse makes the whole of `get_config` fail with the parse error
itself, unwrapped (it is not a `G2EConfigException`) and without trying any
later candidate. -/
theorem claim_c7 (env : Env) (cwd home : String) (fs : String → FileOutcome) :
    (∀ p rest acc, p ≠ "" → fs p = FileOutcome.missing →
      discoverYaml fs acc (some p :: rest) = discoverYaml fs acc rest)
    ∧ (∀ p rest acc m, p ≠ "" → fs p = FileOutcome.parseError m →
      discoverYaml fs acc (some p :: rest) = Except.error (PyError.yamlError m))
    ∧ (∀ m, resolvedYaml env cwd home fs none = Except.error (PyError.yamlError m) →
      get_config env cwd home fs none = Except.error (PyError.yamlError m)) := by
  refine ⟨?_, ?_, ?_⟩
  · intro p rest acc hpe hm
    simp [discoverYaml, hpe, hm]
  · intro p rest acc m hpe herr
    simp [discoverYaml, hpe, herr]
  · intro m hres
    simp [get_config, mergedConfig, hres]

theorem claim_c7_witness :
    discoverYaml fsAllMissing none
        (some "/conf/a.yml" :: [some "/etc/git2edx.env.yml"]) =
      discoverYaml fsAllMissing none [some "/etc/git2edx.env.yml"] :=
  (claim_c7 envEmpty "/cwd" "/home" fsAllMissing).1
    "/conf/a.yml" [some "/etc/git2edx.env.yml"] none (by decide) rfl

end Git2edx

namespace Git2edx

theorem validateStudios_append_error
    (pre : List (String × StudioEntry)) (name : String) (s : StudioEntry)
    (post : List (String × StudioEntry)) (e : PyError)
    (hpre : ∀ p ∈ pre, ∃ r, validateStudio p.1 p.2 = Except.ok r)
    (herr : validateStudio name s = Except.error e) :
    validateStudios (pre ++ (name, s) :: post) = Except.error e := by
  induction pre with
  | nil => simp [validateStudios, herr]
  | cons q pre ih =>
    obtain ⟨qn, qs⟩ := q
    obtain ⟨r, hr⟩ := hpre (qn, qs) (by simp)
    have ih2 := ih (fun p hp => hpre p (by simp [hp]))
    obtain ⟨r1, r2⟩ := r
    simp [validateStudios, hr, ih2]

/-- Claim C2: let a studio of the merged `studios` mapping be the first
entry the validation loop rejects.  If its `email` entry is the empty
string, `get_config` fails with the `G2EConfigException` naming that studio
and the field `email`; if its `email` is a non-empty string and its
`password` entry is the empty string, `get_config` fails with the
`G2EConfigException` naming that studio and the field `password`. -/
theorem claim_c2 (env : Env) (cwd home : String) (fs : String → FileOutcome)
    (yaml0 : Option Yaml) (c1 : Config)
    (pre post : List (String × StudioEntry)) (name : String) (s : StudioEntry)
    (h1 : mergedConfig env cwd home fs yaml0 = Except.ok c1)
    (h2 : resolveStudioEntries env c1 = Except.ok (pre ++ (name, s) :: post))
    (hpre : ∀ p ∈ pre, ∃ r, validateStudio p.1 p.2 = Except.ok r) :
    (s.email = some (Val.vstr "") →
      get_config env cwd home fs yaml0 = Except.error (PyError.g2eConfig
        (g2eExceptionMessage (incompleteStudioMsg name "email"))))
    ∧ (∀ e, s.email = some (Val.vstr e) → e ≠ "" →
      s.password = some (Val.vstr "") →
      get_config env cwd home fs yaml0 = Except.error (PyError.g2eConfig
        (g2eExceptionMessage (incompleteStudioMsg name "password")))) := by
  constructor
  · intro hse
    have herr : validateStudio name s = Except.error (PyError.g2eConfig
        (g2eExceptionMessage (incompleteStudioMsg name "email"))) := by
      simp [validateStudio, hse, Val.truthy]
    simp [get_config, h1, h2,
      validateStudios_append_error pre name s post _ hpre herr]
  · intro e hse he hsp
    have herr : validateStudio name s = Except.error (PyError.g2eConfig
        (g2eExceptionMessage (incompleteStudioMsg name "password"))) := by
      simp [validateStudio, hse, hsp, Val.truthy, he]
    simp [get_config, h1, h2,
      validateStudios_append_error pre name s post _ hpre herr]

theorem claim_c2_witness :
    get_config envEmpty "/cwd" "/home" fsAllMissing (some yamlEmptyEmail) =
      Except.error (PyError.g2eConfig
        (g2eExceptionMessage (incompleteStudioMsg "acme" "email"))) :=
  (claim_c2 envEmpty "/cwd" "/home" fsAllMissing (some yamlEmptyEmail)
      (applyYaml (envConfig envEmpty) (some yamlEmptyEmail)) [] [] "acme"
      { url := some Val.vnone, email := some (Val.vstr ""),
        password := some (Val.vstr "pw"), default := some (Val.vbool true) }
      rfl rfl (by simp)).1 rfl

/-- Claim C3: when the merged configuration has a falsy (absent or empty)
`studios` mapping, `get_config` fails with the `NoStudioConfigured` message
exactly when the environment studio lacks a truthy email or password; when
both are truthy, the environment studio is installed under the reserved
name `"ENVIRON_VARS"` and `get_config` succeeds (so no such error is
raised), the returned mapping being exactly that one entry. -/
theorem claim_c3 (env : Env) (cwd home : String) (fs : String → FileOutcome)
    (yaml0 : Option Yaml) (c1 : Config)
    (h1 : mergedConfig env cwd home fs yaml0 = Except.ok c1)
    (h2 : c1.studios.truthy = false) :
    (((valOfOpt env.studio_email).truthy &&
        (valOfOpt env.studio_password).truthy) = false →
      get_config env cwd home fs yaml0 =
        Except.error (PyError.g2eConfig (g2eExceptionMessage noStudioMsg)))
    ∧ (((valOfOpt env.studio_email).truthy &&
        (valOfOpt env.studio_password).truthy) = true →
      resolveStudioEntries env c1 =
        Except.ok [("ENVIRON_VARS", environStudioConfig env)] ∧
      get_config env cwd home fs yaml0 = Except.ok
        { c1 with
          studios := StudiosVal.vmap
            [("ENVIRON_VARS", defaultedStudio (environStudioConfig env))]
          default_studios := ["ENVIRON_VARS"] }) := by
  constructor
  · intro hcred
    have hres : resolveStudioEntries env c1 = Except.error
        (PyError.g2eConfig (g2eExceptionMessage noStudioMsg)) := by
      simp [resolveStudioEntries, h2, hcred]
    simp [get_config, h1, hres]
  · intro hcred
    have hres : resolveStudioEntries env c1 =
        Except.ok [("ENVIRON_VARS", environStudioConfig env)] := by
      simp [resolveStudioEntries, h2, hcred]
    refine ⟨hres, ?_⟩
    have hval : validateStudios [("ENVIRON_VARS", environStudioConfig env)] =
        Except.ok ([("ENVIRON_VARS", defaultedStudio (environStudioConfig env))],
          ["ENVIRON_VARS"]) := by
      obtain ⟨hem, hpw⟩ := Bool.and_eq_true_iff.mp hcred
      simp [validateStudios, validateStudio, environStudioConfig, hem, hpw,
        defaultedStudio]
      rfl
    simp [get_config, h1, hres, hval]

theorem claim_c3_witness :
    get_config envEmpty "/cwd" "/home" fsAllMissing none =
      Except.error (PyError.g2eConfig (g2eExceptionMessage noStudioMsg)) :=
  (claim_c3 envEmpty "/cwd" "/home" fsAllMissing none (envConfig envEmpty)
      rfl rfl).1 rfl

/-- Claim C4: when the merged configuration yields at least one studio and
every studio validates with none marked default, `get_config` fails with
the `NoDefaultStudio` message exactly when the merged `courses` entry is
falsy (empty or absent); when `courses` is truthy it succeeds and returns
`default_studios = []`. -/
theorem claim_c4 (env : Env) (cwd home : String) (fs : String → FileOutcome)
    (yaml0 : Option Yaml) (c1 : Config)
    (entries entries2 : List (String × StudioEntry))
    (h1 : mergedConfig env cwd home fs yaml0 = Except.ok c1)
    (h2 : resolveStudioEntries env c1 = Except.ok entries)
    (_hne : entries ≠ [])
    (h3 : validateStudios entries = Except.ok (entries2, [])) :
    (c1.courses.truthy = false →
      get_config env cwd home fs yaml0 =
        Except.error (PyError.g2eConfig (g2eExceptionMessage noDefaultMsg)))
    ∧ (c1.courses.truthy = true →
      get_config env cwd home fs yaml0 = Except.ok
        { c1 with studios := StudiosVal.vmap entries2, default_studios := [] }) := by
  constructor
  · intro hc
    simp [get_config, h1, h2, h3, hc]
  · intro hc
    simp [get_config, h1, h2, h3, hc]

theorem claim_c4_witness :
    get_config envEmpty "/cwd" "/home" fsAllMissing (some yamlNonDefaultWithCourses) =
      Except.ok
        { yaml_config_location := Val.vnone
          default_secret := Val.vnone
          course_directory := Val.vnone
          studios := StudiosVal.vmap [("acme",
            { url := some (Val.vstr "http://s.example")
              email := some (Val.vstr "e@x.org")
              password := some (Val.vstr "pw")
              default := some (Val.vbool false) })]
          courses := Val.vstr "course"
          default_studios := [] } :=
  (claim_c4 envEmpty "/cwd" "/home" fsAllMissing (some yamlNonDefaultWithCourses)
      (applyYaml (envConfig envEmpty) (some yamlNonDefaultWithCourses))
      [("acme",
        { url := some (Val.vstr "http://s.example"), email := some (Val.vstr "e@x.org"),
          password := some (Val.vstr "pw"), default := some (Val.vbool false) })]
      [("acme",
        { url := some (Val.vstr "http://s.example"), email := some (Val.vstr "e@x.org"),
          password := some (Val.vstr "pw"), default := some (Val.vbool false) })]
      rfl rfl (by simp) rfl).2 rfl

end Git2edx

namespace Git2edx

theorem validateStudio_ok (name : String) (s : StudioEntry)
    (q : StudioEntry × Bool) (h : validateStudio name s = Except.ok q) :
    s.url ≠ none ∧ q.1 = defaultedStudio s := by
  unfold validateStudio at h
  repeat' split at h
  all_goals simp_all [defaultedStudio]
  all_goals (subst h; rfl)

theorem validateStudios_ok (l l2 : List (String × StudioEntry)) (d : List String)
    (h : validateStudios l = Except.ok (l2, d)) :
    l2 = l.map (fun p => (p.1, defaultedStudio p.2)) ∧
    ∀ p ∈ l, ∃ q, validateStudio p.1 p.2 = Except.ok q := by
  induction l generalizing l2 d with
  | nil =>
    simp [validateStudios] at h
    simp [h.1]
  | cons a l ih =>
    obtain ⟨an, asx⟩ := a
    unfold validateStudios at h
    rcases hv : validateStudio an asx with e | q
    · rw [hv] at h; simp at h
    · rw [hv] at h
      obtain ⟨q1, q2⟩ := q
      rcases hr : validateStudios l with e | r
      · rw [hr] at h; simp at h
      · obtain ⟨r1, r2⟩ := r
        rw [hr] at h
        simp only [Except.ok.injEq, Prod.mk.injEq] at h
        obtain ⟨hl2, -⟩ := h
        obtain ⟨hml, hmem⟩ := ih r1 r2 hr
        constructor
        · have hq1 : q1 = defaultedStudio asx :=
            (validateStudio_ok an asx (q1, q2) hv).2
          rw [← hl2, hml, hq1]
          simp
        · intro p hp
          rcases List.mem_cons.mp hp with hpa | hpl
          · exact ⟨(q1, q2), by rw [hpa]; exact hv⟩
          · exact hmem p hpl

end Git2edx

namespace Git2edx

/-- Claim C10: let a studio of the merged `studios` mapping be the first
entry the validation loop rejects.  If it has a truthy email, a truthy
password and a `url` key but no `default` key at all, `get_config` raises
the unhandled `KeyError` on `"default"` — it is not a `G2EConfigException`,
and the studio is not treated as simply non-default. -/
theorem claim_c10 (env : Env) (cwd home : String) (fs : String → FileOutcome)
    (yaml0 : Option Yaml) (c1 : Config)
    (pre post : List (String × StudioEntry)) (name : String) (s : StudioEntry)
    (v w u : Val)
    (h1 : mergedConfig env cwd home fs yaml0 = Except.ok c1)
    (h2 : resolveStudioEntries env c1 = Except.ok (pre ++ (name, s) :: post))
    (hpre : ∀ p ∈ pre, ∃ r, validateStudio p.1 p.2 = Except.ok r)
    (hem : s.email = some v) (hv : v.truthy = true)
    (hpw : s.password = some w) (hw : w.truthy = true)
    (hurl : s.url = some u)
    (hd : s.default = none) :
    get_config env cwd home fs yaml0 = Except.error (PyError.keyError "default") := by
  have herr : validateStudio name s = Except.error (PyError.keyError "default") := by
    simp [validateStudio, hem, hv, hpw, hw, hurl, hd]
  simp [get_config, h1, h2,
    validateStudios_append_error pre name s post _ hpre herr]

theorem claim_c10_witness :
    get_config envEmpty "/cwd" "/home" fsAllMissing (some yamlNoDefaultKey) =
      Except.error (PyError.keyError "default") :=
  claim_c10 envEmpty "/cwd" "/home" fsAllMissing (some yamlNoDefaultKey)
    (applyYaml (envConfig envEmpty) (some yamlNoDefaultKey)) [] [] "acme"
    { url := some (Val.vstr "http://s.example"), email := some (Val.vstr "e@x.org"),
      password := some (Val.vstr "pw"), default := none }
    (Val.vstr "e@x.org") (Val.vstr "pw") (Val.vstr "http://s.example")
    rfl rfl (by simp) rfl rfl rfl rfl rfl rfl

/-- Claim C9 counterexample: a studio whose mapping lacks the `email` key
makes `get_config` fail with the bare `KeyError("email")` — which names no
studio — and not with a `G2EConfigException` as the claim states. -/
theorem claim_c9_counterexample :
    get_config envEmpty "/cwd" "/home" fsAllMissing (some yamlNoEmailKey) =
      Except.error (PyError.keyError "email") ∧
    PyError.keyError "email" ≠
      PyError.g2eConfig (g2eExceptionMessage (incompleteStudioMsg "acme" "email")) :=
  ⟨rfl, by simp⟩

/-- Claim C9 (amended): let a studio of the merged `studios` mapping be the
first entry the validation loop rejects.  If its mapping lacks the `email`
key entirely, `get_config` fails with the unhandled `KeyError("email")`;
if its email is present and truthy but the `password` key is absent, it
fails with the unhandled `KeyError("password")`.  The error identifies the
missing field only — it is a bare `KeyError`, not a configuration error,
and does not carry the studio name. -/
theorem claim_c9_amended (env : Env) (cwd home : String) (fs : String → FileOutcome)
    (yaml0 : Option Yaml) (c1 : Config)
    (pre post : List (String × StudioEntry)) (name : String) (s : StudioEntry)
    (h1 : mergedConfig env cwd home fs yaml0 = Except.ok c1)
    (h2 : resolveStudioEntries env c1 = Except.ok (pre ++ (name, s) :: post))
    (hpre : ∀ p ∈ pre, ∃ r, validateStudio p.1 p.2 = Except.ok r) :
    (s.email = none →
      get_config env cwd home fs yaml0 = Except.error (PyError.keyError "email"))
    ∧ (∀ v, s.email = some v → v.truthy = true → s.password = none →
      get_config env cwd home fs yaml0 = Except.error (PyError.keyError "password")) := by
  constructor
  · intro hse
    have herr : validateStudio name s = Except.error (PyError.keyError "email") := by
      simp [validateStudio, hse]
    simp [get_config, h1, h2,
      validateStudios_append_error pre name s post _ hpre herr]
  · intro v hse hv hsp
    have herr : validateStudio name s = Except.error (PyError.keyError "password") := by
      simp [validateStudio, hse, hv, hsp]
    simp [get_config, h1, h2,
      validateStudios_append_error pre name s post _ hpre herr]

theorem claim_c9_amended_witness :
    get_config envEmpty "/cwd" "/home" fsAllMissing (some yamlNoEmailKey) =
      Except.error (PyError.keyError "email") :=
  (claim_c9_amended envEmpty "/cwd" "/home" fsAllMissing (some yamlNoEmailKey)
      (applyYaml (envConfig envEmpty) (some yamlNoEmailKey)) [] [] "acme"
      { url := some Val.vnone, email := none,
        password := some (Val.vstr "pw"), default := some (Val.vbool true) }
      rfl rfl (by simp)).1 rfl

/-- Claim C8 counterexample: a studio that passes credential validation but
whose mapping lacks the `url` key does not get the default URL — `studio["url"]`
raises the unhandled `KeyError("url")` and `get_config` returns nothing. -/
theorem claim_c8_counterexample :
    get_config envEmpty "/cwd" "/home" fsAllMissing (some yamlNoUrlKey) =
      Except.error (PyError.keyError "url") := rfl

/-- Claim C8 (amended): for a studio entry of the merged mapping, on a run
of `get_config` that succeeds, the entry reappears in the returned `studios`
with only its url adjusted: a present-but-falsy url becomes
`"https://studio.edx.org"`, a truthy url is kept unchanged, and an absent
`url` key is impossible on a successful run (it raises `KeyError("url")`
instead). -/
theorem claim_c8_amended (env : Env) (cwd home : String) (fs : String → FileOutcome)
    (yaml0 : Option Yaml) (c1 : Config)
    (entries : List (String × StudioEntry)) (name : String) (s : StudioEntry)
    (c : Config)
    (h1 : mergedConfig env cwd home fs yaml0 = Except.ok c1)
    (h2 : resolveStudioEntries env c1 = Except.ok entries)
    (hmem : (name, s) ∈ entries)
    (hok : get_config env cwd home fs yaml0 = Except.ok c) :
    (∃ l2, c.studios = StudiosVal.vmap l2 ∧ (name, defaultedStudio s) ∈ l2)
    ∧ (∀ u, s.url = some u → u.truthy = false →
        (defaultedStudio s).url = some (Val.vstr "https://studio.edx.org"))
    ∧ (∀ u, s.url = some u → u.truthy = true → (defaultedStudio s).url = some u)
    ∧ s.url ≠ none := by
  simp only [get_config, h1, h2] at hok
  rcases hval : validateStudios entries with e | r
  · rw [hval] at hok; simp at hok
  · obtain ⟨l2, d⟩ := r
    obtain ⟨hmap, hall⟩ := validateStudios_ok entries l2 d hval
    have hcs : c.studios = StudiosVal.vmap l2 := by
      simp only [hval] at hok
      split at hok
      · simp at hok
      · rw [← Except.ok.inj hok]
    obtain ⟨qv, hqv⟩ := hall (name, s) hmem
    refine ⟨⟨l2, hcs, ?_⟩, ?_, ?_, (validateStudio_ok name s qv hqv).1⟩
    · rw [hmap]
      exact List.mem_map.mpr ⟨(name, s), hmem, rfl⟩
    · intro u hu hut
      simp [defaultedStudio, hu, hut]
    · intro u hu hut
      simp [defaultedStudio, hu, hut]

theorem claim_c8_amended_witness :
    (defaultedStudio
      { url := some Val.vnone, email := some (Val.vstr "e@x.org"),
        password := some (Val.vstr "pw"), default := some (Val.vbool true) }).url =
      some (Val.vstr "https://studio.edx.org") :=
  ((claim_c8_amended envEmpty "/cwd" "/home" fsAllMissing (some yamlOneDefaultStudio)
      (applyYaml (envConfig envEmpty) (some yamlOneDefaultStudio))
      [("acme",
        { url := some Val.vnone, email := some (Val.vstr "e@x.org"),
          password := some (Val.vstr "pw"), default := some (Val.vbool true) })]
      "acme"
      { url := some Val.vnone, email := some (Val.vstr "e@x.org"),
        password := some (Val.vstr "pw"), default := some (Val.vbool true) }
      { yaml_config_location := Val.vnone
        default_secret := Val.vnone
        course_directory := Val.vnone
        studios := StudiosVal.vmap [("acme",
          { url := some (Val.vstr "https://studio.edx.org")
            email := some (Val.vstr "e@x.org")
            password := some (Val.vstr "pw")
            default := some (Val.vbool true) })]
        courses := Val.vnone
        default_studios := ["acme"] }
      rfl rfl (by simp) rfl).2.1) Val.vnone rfl rfl

end Git2edx

namespace Git2edx

/-- Claim C5 counterexample: with the studio environment variables set and a
supplied YAML configuration that defines the `studios` key as an empty
mapping, the returned `studios` mapping is not the YAML value — the
environment studio is merged in under `"ENVIRON_VARS"`. -/
theorem claim_c5_counterexample :
    get_config envOnlyStudio "/cwd" "/home" fsAllMissing (some yamlEmptyStudios) =
      Except.ok
        { yaml_config_location := Val.vnone
          default_secret := Val.vnone
          course_directory := Val.vnone
          studios := StudiosVal.vmap [("ENVIRON_VARS",
            { url := some (Val.vstr "https://studio.edx.org")
              email := some (Val.vstr "a@b.com")
              password := some (Val.vstr "secret")
              default := some (Val.vbool true) })]
          courses := Val.vnone
          default_studios := ["ENVIRON_VARS"] } ∧
    StudiosVal.vmap [("ENVIRON_VARS",
      { url := some (Val.vstr "https://studio.edx.org")
        email := some (Val.vstr "a@b.com")
        password := some (Val.vstr "secret")
        default := some (Val.vbool true) })] ≠ StudiosVal.vmap [] :=
  ⟨rfl, by simp⟩

/-- Claim C5 (amended): when the environment studio variables are set and
the YAML configuration in force defines a non-empty `studios` mapping, that
mapping wins entirely: the validation loop receives exactly the YAML
entries (the environment studio is not merged in), and on success the
returned `studios` is the YAML mapping with only urls defaulted — in
particular `"ENVIRON_VARS"` does not appear unless the YAML itself used
that name. -/
theorem claim_c5_amended (env : Env) (cwd home : String) (fs : String → FileOutcome)
    (yaml0 : Option Yaml) (y : Yaml) (l : List (String × StudioEntry)) (e p : String)
    (hy : resolvedYaml env cwd home fs yaml0 = Except.ok (some y))
    (hs : y.studios = some (StudiosVal.vmap l))
    (hl : l ≠ [])
    (_hemail : env.studio_email = some e) (_he : e ≠ "")
    (_hpass : env.studio_password = some p) (_hp : p ≠ "") :
    resolveStudioEntries env (applyYaml (envConfig env) (some y)) = Except.ok l
    ∧ ∀ c, get_config env cwd home fs yaml0 = Except.ok c →
        c.studios = StudiosVal.vmap (l.map (fun q => (q.1, defaultedStudio q.2)))
        ∧ ((∀ q ∈ l, q.1 ≠ "ENVIRON_VARS") →
            ∀ s2, ("ENVIRON_VARS", s2) ∉
              l.map (fun q => (q.1, defaultedStudio q.2))) := by
  have hyt : y.truthy = true := by simp [Yaml.truthy, hs]
  have hst : (applyYaml (envConfig env) (some y)).studios = StudiosVal.vmap l := by
    simp [applyYaml, hyt, hs]
  have hlt : (StudiosVal.vmap l).truthy = true := by
    cases l with
    | nil => exact absurd rfl hl
    | cons a t => rfl
  have hres : resolveStudioEntries env (applyYaml (envConfig env) (some y)) =
      Except.ok l := by
    simp [resolveStudioEntries, hst, hlt]
  refine ⟨hres, ?_⟩
  intro c hok
  have hmc : mergedConfig env cwd home fs yaml0 =
      Except.ok (applyYaml (envConfig env) (some y)) := by
    simp [mergedConfig, hy]
  simp only [get_config, hmc, hres] at hok
  constructor
  · rcases hval : validateStudios l with err | r
    · rw [hval] at hok; simp at hok
    · obtain ⟨l2, d⟩ := r
      obtain ⟨hmap, -⟩ := validateStudios_ok l l2 d hval
      simp only [hval] at hok
      split at hok
      · simp at hok
      · rw [← Except.ok.inj hok, ← hmap]
  · intro hnames s2 hmem
    obtain ⟨q, hq, hq2⟩ := List.mem_map.mp hmem
    exact hnames q hq (congrArg Prod.fst hq2)

theorem claim_c5_amended_witness :
    resolveStudioEntries envOnlyStudio
        (applyYaml (envConfig envOnlyStudio) (some yamlOneDefaultStudio)) =
      Except.ok [("acme",
        { url := some Val.vnone, email := some (Val.vstr "e@x.org"),
          password := some (Val.vstr "pw"), default := some (Val.vbool true) })] :=
  (claim_c5_amended envOnlyStudio "/cwd" "/home" fsAllMissing
      (some yamlOneDefaultStudio) yamlOneDefaultStudio
      [("acme",
        { url := some Val.vnone, email := some (Val.vstr "e@x.org"),
          password := some (Val.vstr "pw"), default := some (Val.vbool true) })]
      "a@b.com" "secret"
      rfl rfl (by simp) rfl (by decide) rfl (by decide)).1

end Git2edx
